import Mathlib

set_option exponentiation.threshold 1100
set_option maxRecDepth 4000

/-!
Verification development for the geospatial location visualizer (`app.py`).

The file shallowly embeds the coordinate-validation, column-selection and
normalization pipeline of the source: cell values become an inductive
`Value`, Python floats become `PFloat` (a rational together with the three
non-finite values), Python's `float()` and pandas' `to_numeric(...,
errors="coerce")` become explicit parsers, and the Streamlit `main`
pipeline (mask, copy, column assignment, dropna) becomes the pure function
`normalize`.  Machine-float rounding is modelled by exact rationals: every
comparison performed by the source (`-90 <= lat <= 90` etc.) distinguishes
only values that are distinguished as doubles as well, and overflow of
enormous exponents to `inf` (which the rational model lacks) cannot change
any range check.
-/

namespace GeoApp

/-- A Python float: a finite value (modelled exactly as a rational), NaN,
or one of the two infinities. -/
inductive PFloat where
  | fin (q : ℚ)
  | pnan
  | pinf
  | pninf
deriving DecidableEq

/-- Python `<=` on floats: NaN is incomparable with everything
(comparisons involving it are false). -/
def PFloat.le : PFloat → PFloat → Bool
  | .pnan, _ => false
  | _, .pnan => false
  | .pninf, _ => true
  | _, .pninf => false
  | _, .pinf => true
  | .pinf, _ => false
  | .fin a, .fin b => decide (a ≤ b)

/-- A cell of the uploaded table: a float, an integer, a string, or
Python `None`.  (NaN missing markers are `.float .pnan`.) -/
inductive Value where
  | float (f : PFloat)
  | intv (n : ℤ)
  | str (s : String)
  | vnone
deriving DecidableEq

/-- Model of `pd.isna` on a cell: NaN and `None` are missing. -/
def isNA : Value → Bool
  | .float .pnan => true
  | .vnone => true
  | _ => false

/-- ASCII whitespace stripped by numeric string conversion. -/
def isWsChar (c : Char) : Bool :=
  c.toNat = 32 || c.toNat = 9 || c.toNat = 10 || c.toNat = 13 || c.toNat = 11 || c.toNat = 12

/-- Strip whitespace from both ends of a character list. -/
def trimWs (l : List Char) : List Char :=
  ((l.dropWhile isWsChar).reverse.dropWhile isWsChar).reverse

/-- Lowercase an ASCII letter. -/
def lowChar (c : Char) : Char :=
  if 65 ≤ c.toNat && c.toNat ≤ 90 then Char.ofNat (c.toNat + 32) else c

/-- Decimal digit test. -/
def isDigitCh (c : Char) : Bool := 48 ≤ c.toNat && c.toNat ≤ 57

/-- Value of a decimal digit. -/
def digitVal (c : Char) : Nat := c.toNat - 48

/-- Consume a run of decimal digits, returning the accumulated value, the
number of digits consumed, and the rest of the input. -/
def takeDigits : List Char → Nat → Nat → Nat × Nat × List Char
  | [], v, n => (v, n, [])
  | c :: rest, v, n =>
    if isDigitCh c then takeDigits rest (v * 10 + digitVal c) (n + 1)
    else (v, n, c :: rest)

/-- Check Python's rule for underscores in numeric literals: every
underscore must be immediately surrounded by digits. -/
def undOkAux : Char → List Char → Bool
  | _, [] => true
  | p, c :: rest =>
    if c = '_' then
      match rest with
      | [] => false
      | d :: _ => isDigitCh p && isDigitCh d && undOkAux c rest
    else undOkAux c rest

/-- Whole-token underscore validity (a leading underscore is invalid). -/
def undOk : List Char → Bool
  | [] => true
  | c :: rest => if c = '_' then false else undOkAux c rest

/-- Parse the optional exponent suffix.  `ip` is the integer part, `fp`
the fraction digits value, `nf` the number of fraction digits; the result
is the mantissa `ip * 10 ^ nf + fp`, the fraction length, and the signed
exponent, to be assembled into a rational by `assembleQ`. -/
def parseExp (ip fp nf : Nat) (r : List Char) : Option (Nat × Nat × ℤ) :=
  let m := ip * 10 ^ nf + fp
  match r with
  | [] => some (m, nf, 0)
  | 'e' :: r2 =>
    let sr : ℤ × List Char :=
      match r2 with
      | '+' :: t => (1, t)
      | '-' :: t => (-1, t)
      | t => (1, t)
    let d := takeDigits sr.2 0 0
    if d.2.1 = 0 || d.2.2 ≠ [] then none
    else some (m, nf, sr.1 * (d.1 : ℤ))
  | _ => none

/-- Parse an unsigned decimal literal (digits, optional point and
fraction, optional exponent); the input is lowercased and
underscore-free. -/
def parsePlain (l : List Char) : Option (Nat × Nat × ℤ) :=
  let d := takeDigits l 0 0
  match d.2.2 with
  | '.' :: r1b =>
    let df := takeDigits r1b 0 0
    if d.2.1 + df.2.1 = 0 then none else parseExp d.1 df.1 df.2.1 df.2.2
  | _ => if d.2.1 = 0 then none else parseExp d.1 0 0 d.2.2

/-- The exact rational value `sign * (m / 10 ^ nf) * 10 ^ e` denoted by a
parsed decimal literal (built through `mkRat` from integer arithmetic). -/
def assembleQ (neg : Bool) (m nf : Nat) (e : ℤ) : ℚ :=
  let n : ℤ := if neg then -(m : ℤ) else (m : ℤ)
  if 0 ≤ e then mkRat (n * (10 : ℤ) ^ e.toNat) (10 ^ nf)
  else mkRat n (10 ^ nf * 10 ^ (-e).toNat)

/-- Parse a signed numeric token (already trimmed and lowercased).
`allowUnd` selects Python's underscore rule (`float()`); with it off, any
underscore simply fails the digit grammar, as in pandas' parser. -/
def parseSigned (allowUnd : Bool) (l : List Char) : Option PFloat :=
  let sl : Bool × List Char :=
    match l with
    | '+' :: t => (false, t)
    | '-' :: t => (true, t)
    | t => (false, t)
  let neg := sl.1
  let l1 := sl.2
  if l1 = ['i', 'n', 'f'] || l1 = ['i', 'n', 'f', 'i', 'n', 'i', 't', 'y'] then
    some (if neg then .pninf else .pinf)
  else if l1 = ['n', 'a', 'n'] then some .pnan
  else if allowUnd && !undOk l1 then none
  else
    let l2 := if allowUnd then l1.filter (fun c => c ≠ '_') else l1
    match parsePlain l2 with
    | some t => some (.fin (assembleQ neg t.1 t.2.1 t.2.2))
    | none => none

/-- Python's `float(str)`: strips whitespace, case-insensitive, accepts
underscores between digits, `inf`, `infinity` and `nan` words.  Overflow
of astronomically large exponents to `inf` is not modelled (it cannot
affect any range comparison against ±90/±180). -/
def pyParseFloat (s : String) : Option PFloat :=
  parseSigned true ((trimWs s.data).map lowChar)

/-- The numeric string grammar of pandas `to_numeric` (its C parser):
like Python's but with no underscore support. -/
def pdParseNumeric (s : String) : Option PFloat :=
  parseSigned false ((trimWs s.data).map lowChar)

/-- The exception classes `float()` can raise here: the two the source
catches, and OverflowError, which it does not. -/
inductive PyErr where
  | valueError
  | typeError
  | overflowError
deriving DecidableEq

/-- Equality on `Except` outcomes is decidable component-wise. -/
instance {ε α : Type} [DecidableEq ε] [DecidableEq α] : DecidableEq (Except ε α)
  | .error a, .error b =>
    if h : a = b then .isTrue (by rw [h])
    else .isFalse (fun he => h (by injection he))
  | .error a, .ok b => .isFalse (fun he => by injection he)
  | .ok a, .error b => .isFalse (fun he => by injection he)
  | .ok a, .ok b =>
    if h : a = b then .isTrue (by rw [h])
    else .isFalse (fun he => h (by injection he))

/-- The smallest integer magnitude on which CPython `float(int)` raises
OverflowError: integers of magnitude at least `2^1024 - 2^970` round
(half-even) to infinity, and int-to-float conversion then raises rather
than returning `inf`. -/
def floatOverflowBound : Nat := 2 ^ 1024 - 2 ^ 970

/-- Python `float(x)` on a cell: floats coerce; ints coerce when below
the double overflow bound and raise OverflowError otherwise; strings are
parsed (ValueError on failure — string parsing overflows to `inf`, it
never raises OverflowError); `None` raises TypeError. -/
def pyFloat : Value → Except PyErr PFloat
  | .float f => .ok f
  | .intv n => if n.natAbs < floatOverflowBound then .ok (.fin (n : ℚ)) else .error .overflowError
  | .str s =>
    match pyParseFloat s with
    | some f => .ok f
    | none => .error .valueError
  | .vnone => .error .typeError

/-- Per-cell model of `pd.to_numeric(x, errors="coerce")`: failures and
missing values become NaN.  The overflow-sized-int arm is unreachable in
context: a row holding such a cell in a coordinate column makes the
validation mask raise first, aborting the whole upload before
`to_numeric` runs, and `to_numeric` is only applied to the two
coordinate columns. -/
def pdToNumeric : Value → PFloat
  | .float f => f
  | .intv n => if n.natAbs < floatOverflowBound then .fin (n : ℚ) else .pnan
  | .vnone => .pnan
  | .str s =>
    match pdParseNumeric s with
    | some f => f
    | none => .pnan

/-- The chained comparison `-90 <= lat <= 90` of the source. -/
def latOk (f : PFloat) : Bool := PFloat.le (.fin (-90)) f && PFloat.le f (.fin 90)

/-- The chained comparison `-180 <= lon <= 180` of the source. -/
def lonOk (f : PFloat) : Bool := PFloat.le (.fin (-180)) f && PFloat.le f (.fin 180)

/-- The function `validate_coordinates` of `app.py`: coerce both inputs with
`float()`, catching ValueError/TypeError as `False`; then the chained
range comparisons.  This Bool-valued function is the returned value on
the non-raising inputs; its `.error _ => false` arm also absorbs the
uncaught OverflowError, on whose inputs the source returns nothing —
`validate_coordinates_run` is the faithful exception-aware model, and
the two agree wherever the source returns. -/
def validate_coordinates (lat lon : Value) : Bool :=
  match pyFloat lat with
  | .error _ => false
  | .ok la =>
    match pyFloat lon with
    | .error _ => false
    | .ok lo => if !latOk la || !lonOk lo then false else true

/-- Exception-aware model of `validate_coordinates`: the try body with
`except (ValueError, TypeError): return False` — any other exception
(the OverflowError from `float()` on an overflow-sized int) propagates
to the caller. -/
def validate_coordinates_run (lat lon : Value) : Except PyErr Bool :=
  match pyFloat lat with
  | .error .valueError => .ok false
  | .error .typeError => .ok false
  | .error e => .error e
  | .ok la =>
    match pyFloat lon with
    | .error .valueError => .ok false
    | .error .typeError => .ok false
    | .error e => .error e
    | .ok lo => .ok (if !latOk la || !lonOk lo then false else true)

/-- Cells whose `float()` coercion cannot raise an uncaught exception:
everything except integers at or above the overflow bound (string
parsing overflows to `inf` without raising, and `None`/unparseable
strings raise only the caught TypeError/ValueError). -/
def coercionSafe : Value → Bool
  | .intv n => decide (n.natAbs < floatOverflowBound)
  | _ => true

/-- Does the (lowercased) name begin with the pattern? -/
def listStarts : List Char → List Char → Bool
  | _, [] => true
  | [], _ :: _ => false
  | a :: as, b :: bs => a = b && listStarts as bs

/-- Substring containment on character lists (`term in col.lower()`). -/
def listContainsSub : List Char → List Char → Bool
  | [], sub => sub.isEmpty
  | a :: t, sub => listStarts (a :: t) sub || listContainsSub t sub

/-- Model of the Python test `term in col.lower()` for a column name. -/
def nameHas (col : String) (term : String) : Bool :=
  listContainsSub (col.data.map lowChar) term.data

/-- The latitude name patterns: `lat` or `latitude` as a substring. -/
def isLatName (col : String) : Bool :=
  nameHas col "lat" || nameHas col "latitude"

/-- The longitude name patterns: `lon`, `long`, `longitude` or `lng`. -/
def isLonName (col : String) : Bool :=
  nameHas col "lon" || nameHas col "long" || nameHas col "longitude" || nameHas col "lng"

/-- The default of the coordinate selectbox: the first name-matching
column when one exists, otherwise the first column of the frame
(a Streamlit selectbox without an index defaults to option 0). -/
def roleDefaultSel (p : String → Bool) (cols : List String) : Option String :=
  match (cols.filter p).head? with
  | some c => some c
  | none => cols.head?

/-- Default latitude column selection. -/
def latColSel (cols : List String) : Option String := roleDefaultSel isLatName cols

/-- Default longitude column selection. -/
def lonColSel (cols : List String) : Option String := roleDefaultSel isLonName cols

/-- An uploaded table: ordered column labels and rows of cells, each row
aligned positionally with the labels. -/
structure Dataset where
  cols : List String
  rows : List (List Value)
deriving DecidableEq

/-- Index of the first column with the given label. -/
def colIdx (cols : List String) (c : String) : Option Nat :=
  match cols with
  | [] => none
  | c0 :: t => if c0 = c then some 0 else (colIdx t c).map (· + 1)

/-- Cell lookup `row[c]` under a column layout (missing labels give `None`; the
source never reads a label that is absent). -/
def getCell (cols : List String) (row : List Value) (c : String) : Value :=
  match colIdx cols c with
  | some i => row.getD i Value.vnone
  | none => Value.vnone

/-- Column-wise assignment `frame[c] = v` on the labels: overwrites an
existing column, otherwise appends a new one at the end. -/
def addColName (cols : List String) (c : String) : List String :=
  match colIdx cols c with
  | some _ => cols
  | none => cols ++ [c]

/-- Column-wise assignment `frame[c] = v` on one row. -/
def setCell (cols : List String) (row : List Value) (c : String) (v : Value) : List Value :=
  match colIdx cols c with
  | some i => row.set i v
  | none => row ++ [v]

/-- Line 242 of `app.py`:
`valid_data["latitude"] = pd.to_numeric(valid_data[lat_col], errors="coerce")`. -/
def assignLat (cols : List String) (lc : String) (r : List Value) : List Value :=
  setCell cols r "latitude" (Value.float (pdToNumeric (getCell cols r lc)))

/-- Line 243 of `app.py` (runs after the latitude assignment, so it reads
the already-updated frame):
`valid_data["longitude"] = pd.to_numeric(valid_data[lon_col], errors="coerce")`. -/
def assignLon (cols1 : List String) (gc : String) (r : List Value) : List Value :=
  setCell cols1 r "longitude" (Value.float (pdToNumeric (getCell cols1 r gc)))

/-- The cleaned frame plus the invalid-coordinate count the sidebar
reports (`len(df) - len(valid_data)`). -/
structure Normalized where
  cols : List String
  rows : List (List Value)
  rejected : Nat
deriving DecidableEq

/-- Lines 236-244 plus the reported counts of `app.py`: the
`validate_coordinates` row mask, the copy, the two coerced coordinate
columns, and `dropna(subset=["latitude", "longitude"])`.  The fallthrough
branch can only be reached by a zero-column frame, which `pd.read_csv`
never produces (a selectbox over a nonempty column list always selects a
column); it is modelled per §4.3 of the spec as empty output with
everything rejected. -/
def normalize (ds : Dataset) : Normalized :=
  match latColSel ds.cols, lonColSel ds.cols with
  | some lc, some gc =>
    let kept := ds.rows.filter fun r =>
      validate_coordinates (getCell ds.cols r lc) (getCell ds.cols r gc)
    let cols1 := addColName ds.cols "latitude"
    let rows1 := kept.map (assignLat ds.cols lc)
    let cols2 := addColName cols1 "longitude"
    let rows2 := rows1.map (assignLon cols1 gc)
    let rows3 := rows2.filter fun r =>
      !isNA (getCell cols2 r "latitude") && !isNA (getCell cols2 r "longitude")
    { cols := cols2, rows := rows3, rejected := ds.rows.length - rows3.length }
  | _, _ => { cols := ds.cols, rows := [], rejected := ds.rows.length }

/-- The column layout `normalize` produces. -/
def colsOut (cols : List String) : List String :=
  addColName (addColName cols "latitude") "longitude"

/-- The per-row transformation `normalize` applies to every row that
passes the mask. -/
def transformRow (cols : List String) (lc gc : String) (r : List Value) : List Value :=
  assignLon (addColName cols "latitude") gc (assignLat cols lc r)

/-- The exact per-row acceptance condition of the pipeline: the
`validate_coordinates` mask, then non-missingness of both coerced
coordinates (the `dropna`). -/
def keepRow (cols : List String) (lc gc : String) (r : List Value) : Bool :=
  validate_coordinates (getCell cols r lc) (getCell cols r gc) &&
    (!isNA (getCell (colsOut cols) (transformRow cols lc gc r) "latitude") &&
      !isNA (getCell (colsOut cols) (transformRow cols lc gc r) "longitude"))

/-- Left-pad a number with zeros to `k` digits. -/
def padZeros (k n : Nat) : String :=
  let s := toString n
  String.mk (List.replicate (k - s.length) '0') ++ s

/-- Six-decimal rendering of the nonnegative rational `n / d`
(the rounded integer `⌊n/d * 10^6 + 1/2⌋` split at the point). -/
def formatSixParts (n d : Nat) : String :=
  let m := (2 * n * 1000000 + d) / (2 * d)
  toString (m / 1000000) ++ "." ++ padZeros 6 (m % 1000000)

/-- Python `format(x, ".6f")` on a float, in the exact-rational model.
Round-half-up at the 6th decimal; Python rounds the underlying double
half-even, which differs only on exact decimal ties no double represents. -/
def formatSixQ (q : ℚ) : String :=
  if q.num < 0 then "-" ++ formatSixParts q.num.natAbs q.den
  else formatSixParts q.num.toNat q.den

/-- Six-decimal formatting of a float value. -/
def formatSixF : PFloat → String
  | .fin q => formatSixQ q
  | .pnan => "nan"
  | .pinf => "inf"
  | .pninf => "-inf"

/-- Six-decimal formatting of a cell.  Strings would raise in Python; the pipeline
only ever formats the coerced coordinate columns, which hold floats (or
ints), so the string case is unreachable in context. -/
def formatSixV : Value → String
  | .float f => formatSixF f
  | .intv n => if n < 0 then "-" ++ formatSixParts n.natAbs 1 else formatSixParts n.toNat 1
  | _ => ""

/-- Decimal representation of the nonnegative rational `n / d` in lowest
terms, with the minimal number of fraction digits (and `x.0` for whole
numbers), matching Python's `str` on floats whose decimal expansion
terminates — the only finite floats this pipeline produces from data. -/
def decReprParts (n d : Nat) : String :=
  match (List.range 41).find? (fun k => 10 ^ k % d = 0) with
  | some 0 => toString (n / d) ++ ".0"
  | some k =>
    let m := n * 10 ^ k / d
    toString (m / 10 ^ k) ++ "." ++ padZeros k (m % 10 ^ k)
  | none => toString n ++ "/" ++ toString d

/-- Python `str(x)` / f-string interpolation of a cell value. -/
def pyStr : Value → String
  | .str s => s
  | .vnone => "None"
  | .intv n => if n < 0 then "-" ++ toString n.natAbs else toString n.toNat
  | .float (.fin q) =>
    if q.num < 0 then "-" ++ decReprParts q.num.natAbs q.den
    else decReprParts q.num.toNat q.den
  | .float .pnan => "nan"
  | .float .pinf => "inf"
  | .float .pninf => "-inf"

/-- Presence test of the source (`c in row and pd.notna(row[c])`): the row
has the column and its value is not missing. -/
def hasAttr (cols : List String) (row : List Value) (c : String) : Bool :=
  (colIdx cols c).isSome && !isNA (getCell cols row c)

/-- A single-quote character (ASCII 39). -/
def sq : String := String.mk [Char.ofNat 39]

/-- The opening line of the popup block. -/
def divOpen : String := "<div class=" ++ sq ++ "location-popup" ++ sq ++ ">"

/-- The closing line of the popup block. -/
def divClose : String := "</div>"

/-- The popup header line with the 1-based location index. -/
def headerLine (idx : Nat) : String :=
  "<b>📍 Location " ++ toString (idx + 1) ++ "</b><br>"

/-- The latitude popup line, six decimals. -/
def latLine (cols : List String) (row : List Value) : String :=
  "<b>Latitude:</b> " ++ formatSixV (getCell cols row "latitude") ++ "<br>"

/-- The longitude popup line, six decimals. -/
def lonLine (cols : List String) (row : List Value) : String :=
  "<b>Longitude:</b> " ++ formatSixV (getCell cols row "longitude") ++ "<br>"

/-- An optional attribute line of the popup, label plus the cell text. -/
def attrLine (label : String) (cols : List String) (row : List Value) (c : String) : String :=
  "<b>" ++ label ++ ":</b> " ++ pyStr (getCell cols row c) ++ "<br>"

/-- The popup line list built in the clustered branch of
`create_folium_map` (lines 88-110), mirroring its sequential appends. -/
def popupCluster (idx : Nat) (cols : List String) (row : List Value) : List String :=
  let l1 := [divOpen]
  let l2 := l1 ++ [headerLine idx]
  let l3 := l2 ++ [latLine cols row]
  let l4 := l3 ++ [lonLine cols row]
  let l5 := if hasAttr cols row "postal_code" then l4 ++ [attrLine "Postal Code" cols row "postal_code"] else l4
  let l6 := if hasAttr cols row "state" then l5 ++ [attrLine "State" cols row "state"] else l5
  let l7 := if hasAttr cols row "city" then l6 ++ [attrLine "City" cols row "city"] else l6
  let l8 := if hasAttr cols row "address" then l7 ++ [attrLine "Address" cols row "address"] else l7
  l8 ++ [divClose]

/-- The popup line list built in the non-clustered branch (lines
128-143); it has no address block. -/
def popupNoCluster (idx : Nat) (cols : List String) (row : List Value) : List String :=
  let l1 := [divOpen]
  let l2 := l1 ++ [headerLine idx]
  let l3 := l2 ++ [latLine cols row]
  let l4 := l3 ++ [lonLine cols row]
  let l5 := if hasAttr cols row "postal_code" then l4 ++ [attrLine "Postal Code" cols row "postal_code"] else l4
  let l6 := if hasAttr cols row "state" then l5 ++ [attrLine "State" cols row "state"] else l5
  let l7 := if hasAttr cols row "city" then l6 ++ [attrLine "City" cols row "city"] else l6
  l7 ++ [divClose]

/-- The tooltip of the clustered branch (lines 112-117): city if
present, else state, else `f"Location {idx + 1}"`. -/
def tooltipCluster (idx : Nat) (cols : List String) (row : List Value) : String :=
  if hasAttr cols row "city" then pyStr (getCell cols row "city")
  else if hasAttr cols row "state" then pyStr (getCell cols row "state")
  else "Location " ++ toString (idx + 1)

/-- The tooltip of the non-clustered branch (lines 145-147): city if
present, else `f"Location {idx + 1}"` — no state fallback here. -/
def tooltipNoCluster (idx : Nat) (cols : List String) (row : List Value) : String :=
  if hasAttr cols row "city" then pyStr (getCell cols row "city")
  else "Location " ++ toString (idx + 1)

/-- The marker layout `create_folium_map` produces: whether the markers
go into a `MarkerCluster` (the `cluster and len(data) > 1` branch), and
the marker coordinate list, one marker per row in row order. -/
structure RenderedLayer where
  clustered : Bool
  markers : List (Value × Value)
deriving DecidableEq

/-- The marker coordinates of a normalized frame, in row order. -/
def dataPoints (nd : Normalized) : List (Value × Value) :=
  nd.rows.map fun r => (getCell nd.cols r "latitude", getCell nd.cols r "longitude")

/-- The marker-placement behavior of `create_folium_map` (line 76: the
`MarkerCluster` is used only when clustering is enabled AND the frame has
more than one row; otherwise each point is an individual marker). -/
def create_folium_map (nd : Normalized) (cluster : Bool) : RenderedLayer :=
  { clustered := cluster && decide (1 < nd.rows.length)
    markers := dataPoints nd }

/-- Concrete frame for the C2 witness. -/
def dsC2 : Dataset :=
  ⟨["lat", "lon"], [[.float (.fin (mkRat 1 1)), .float (.fin (mkRat 2 1))]]⟩

/-- Concrete frame for the C3 counterexample: the latitude cell `"1_0"`
passes Python `float()` (value 10.0) but not pandas `to_numeric`. -/
def dsC3 : Dataset :=
  ⟨["lat", "lon"], [[.str "1_0", .float (.fin (mkRat 20 1))]]⟩

/-- Concrete frame for the C3 witness. -/
def dsC3w : Dataset :=
  ⟨["lat", "lon"], [[.float (.fin (mkRat 40 1)), .float (.fin (mkRat (-74) 1))]]⟩

/-- Concrete frame for the C5 witness (one valid and one invalid row). -/
def dsC5 : Dataset :=
  ⟨["lat", "lon"],
    [[.float (.fin (mkRat 1 1)), .float (.fin (mkRat 2 1))],
      [.str "x", .float (.fin (mkRat 3 1))]]⟩

/-- Concrete frame for the C6 counterexample: a point with no city,
state or postal data. -/
def dsC6 : Dataset :=
  ⟨["latitude", "longitude"], [[.float (.fin (mkRat 10 1)), .float (.fin (mkRat 20 1))]]⟩

/-- Concrete frame for the C7 counterexample: a point carrying an
address attribute. -/
def dsC7 : Dataset :=
  ⟨["lat", "lon", "address"],
    [[.float (.fin (mkRat 10 1)), .float (.fin (mkRat 20 1)), .str "5 Elm St"]]⟩

/-- Concrete single-point frame `(10.0, 20.0)` for the C8 witness. -/
def dsC8 : Dataset :=
  ⟨["latitude", "longitude"], [[.float (.fin (mkRat 10 1)), .float (.fin (mkRat 20 1))]]⟩

/-- Concrete frame for the C10 counterexample: the uploaded table
already has columns literally named `latitude`/`longitude`, holding
textual values. -/
def dsC10 : Dataset :=
  ⟨["latitude", "longitude"], [[.str "10.5", .str "20.5"]]⟩

/-- Row used by the C10 witness. -/
def rowC10w : List Value :=
  [Value.str "A", .float (.fin (mkRat 10 1)), .float (.fin (mkRat 20 1))]

/- Helper lemmas about the pipeline. -/

lemma filter_of_map {α β : Type} (f : α → β) (q : β → Bool) (l : List α) :
    (l.map f).filter q = (l.filter fun a => q (f a)).map f := by
  induction l with
  | nil => rfl
  | cons a t ih =>
    simp only [List.map_cons, List.filter_cons]
    cases q (f a) <;> simp [ih]

lemma filterAnd {α : Type} (p q : α → Bool) (l : List α) :
    (l.filter p).filter q = l.filter fun a => p a && q a := by
  induction l with
  | nil => rfl
  | cons a t ih =>
    simp only [List.filter_cons]
    cases hp : p a <;> cases hq : q a <;> simp [List.filter_cons, hp, hq, ih]

lemma normalize_rows_eq (ds : Dataset) (lc gc : String)
    (h1 : latColSel ds.cols = some lc) (h2 : lonColSel ds.cols = some gc) :
    (normalize ds).rows =
      (ds.rows.filter (keepRow ds.cols lc gc)).map (transformRow ds.cols lc gc) := by
  simp only [normalize, h1, h2]
  rw [List.map_map, filter_of_map, filterAnd]
  rfl

lemma normalize_rejected (ds : Dataset) :
    (normalize ds).rejected = ds.rows.length - (normalize ds).rows.length := by
  cases h1 : latColSel ds.cols <;> cases h2 : lonColSel ds.cols <;>
    simp [normalize, h1, h2]

lemma normalize_rows_le (ds : Dataset) :
    (normalize ds).rows.length ≤ ds.rows.length := by
  cases h1 : latColSel ds.cols <;> cases h2 : lonColSel ds.cols <;>
    simp only [normalize, h1, h2] <;> try simp
  calc (List.filter _ (List.map _ (List.filter _ ds.rows))).length
      ≤ (List.map _ (List.filter _ ds.rows)).length := List.length_filter_le _ _
    _ = (List.filter _ ds.rows).length := List.length_map _ _
    _ ≤ ds.rows.length := List.length_filter_le _ _

lemma getD_set_ne {α : Type} (l : List α) (i j : Nat) (v d : α) (h : i ≠ j) :
    (l.set i v).getD j d = l.getD j d := by
  induction l generalizing i j with
  | nil => rfl
  | cons a t ih =>
    cases i with
    | zero =>
      cases j with
      | zero => exact absurd rfl h
      | succ j => rfl
    | succ i =>
      cases j with
      | zero => rfl
      | succ j => exact ih i j (fun he => h (by rw [he]))

lemma getD_append_left {α : Type} (l l' : List α) (j : Nat) (d : α) (h : j < l.length) :
    (l ++ l').getD j d = l.getD j d := by
  induction l generalizing j with
  | nil => exact absurd h (by simp)
  | cons a t ih =>
    cases j with
    | zero => rfl
    | succ j => exact ih j (Nat.lt_of_succ_lt_succ h)

lemma colIdx_spec (cols : List String) (c : String) (i : Nat) (h : colIdx cols c = some i) :
    i < cols.length ∧ cols.getD i "" = c := by
  induction cols generalizing i with
  | nil => exact absurd h (by simp [colIdx])
  | cons c0 t ih =>
    by_cases h0 : c0 = c
    · simp only [colIdx, h0, if_pos rfl] at h
      cases h
      exact ⟨Nat.succ_pos _, h0⟩
    · simp only [colIdx, if_neg h0, Option.map_eq_some'] at h
      obtain ⟨i', hi', rfl⟩ := h
      exact ⟨Nat.succ_lt_succ (ih i' hi').1, (ih i' hi').2⟩

lemma setCell_getD_ne (cols : List String) (r : List Value) (c : String) (v : Value)
    (j : Nat) (hlen : r.length = cols.length) (hj : j < cols.length)
    (hname : cols.getD j "" ≠ c) :
    (setCell cols r c v).getD j Value.vnone = r.getD j Value.vnone := by
  cases hix : colIdx cols c with
  | none =>
    simp only [setCell, hix]
    exact getD_append_left _ _ _ _ (hlen ▸ hj)
  | some i =>
    simp only [setCell, hix]
    refine getD_set_ne _ _ _ _ _ fun he => hname ?_
    rw [← he]
    exact (colIdx_spec cols c i hix).2

lemma setCell_length (cols : List String) (r : List Value) (c : String) (v : Value)
    (hlen : r.length = cols.length) :
    (setCell cols r c v).length = (addColName cols c).length := by
  cases hix : colIdx cols c <;> simp [setCell, addColName, hix, hlen]

lemma addColName_length_le (cols : List String) (c : String) :
    cols.length ≤ (addColName cols c).length := by
  cases hix : colIdx cols c <;> simp [addColName, hix]

lemma addColName_getD (cols : List String) (c : String) (j : Nat) (hj : j < cols.length) :
    (addColName cols c).getD j "" = cols.getD j "" := by
  cases hix : colIdx cols c with
  | none =>
    simp only [addColName, hix]
    exact getD_append_left _ _ _ _ hj
  | some i => simp [addColName, hix]

lemma addColName_mem (cols : List String) (c0 c : String) (h : c ∈ addColName cols c0) :
    c ∈ cols ∨ c = c0 := by
  cases hix : colIdx cols c0 with
  | none =>
    simp only [addColName, hix, List.mem_append, List.mem_singleton] at h
    exact h
  | some i =>
    simp only [addColName, hix] at h
    exact .inl h

lemma normalize_cols (ds : Dataset) (lc gc : String)
    (h1 : latColSel ds.cols = some lc) (h2 : lonColSel ds.cols = some gc) :
    (normalize ds).cols = colsOut ds.cols := by
  simp only [normalize, h1, h2]
  rfl

lemma roleDefaultSel_isSome (p : String → Bool) (cols : List String) (h : cols ≠ []) :
    (roleDefaultSel p cols).isSome = true := by
  cases hf : (cols.filter p).head? <;> simp only [roleDefaultSel, hf]
  · cases cols with
    | nil => exact absurd rfl h
    | cons a t => rfl
  · rfl

lemma roleDefaultSel_noMatch (p : String → Bool) (cols : List String)
    (hf : cols.filter p = []) : roleDefaultSel p cols = cols.head? := by
  simp [roleDefaultSel, hf]

lemma pyFloat_safe (v : Value) (h : coercionSafe v = true) :
    pyFloat v ≠ Except.error PyErr.overflowError := by
  cases v with
  | float f => simp [pyFloat]
  | intv n =>
    simp only [coercionSafe] at h
    simp [pyFloat, of_decide_eq_true h]
  | str s => cases hp : pyParseFloat s <;> simp [pyFloat, hp]
  | vnone => simp [pyFloat]

/-- Claim C2: for every input frame, the number of points in the
normalized frame plus the reported rejected count (`len(df) -
len(valid_data)`) equals the number of raw rows; both coordinate roles
are always assigned when the frame has at least one column (the
selectboxes always default to a column), and in the unreachable
unassigned case the output is empty with everything rejected. -/
theorem C2_counts (ds : Dataset) :
    (normalize ds).rows.length + (normalize ds).rejected = ds.rows.length
    ∧ (ds.cols ≠ [] → (latColSel ds.cols).isSome = true ∧ (lonColSel ds.cols).isSome = true)
    ∧ ((latColSel ds.cols = none ∨ lonColSel ds.cols = none) →
        (normalize ds).rows = [] ∧ (normalize ds).rejected = ds.rows.length) := by
  refine ⟨?_, fun h => ⟨roleDefaultSel_isSome _ _ h, roleDefaultSel_isSome _ _ h⟩, ?_⟩
  · rw [normalize_rejected]
    exact Nat.add_sub_cancel' (normalize_rows_le ds)
  · intro h
    rcases h with h | h
    · cases h2 : lonColSel ds.cols <;> simp [normalize, h, h2]
    · cases h1 : latColSel ds.cols <;> simp [normalize, h, h1]

/-- Witness for C2 at a concrete one-row frame. -/
theorem C2_witness :
    dsC2.cols ≠ []
    ∧ ((latColSel dsC2.cols).isSome = true ∧ (lonColSel dsC2.cols).isSome = true)
    ∧ (normalize dsC2).rows.length + (normalize dsC2).rejected = dsC2.rows.length :=
  ⟨by decide, (C2_counts dsC2).2.1 (by decide), (C2_counts dsC2).1⟩

/-- Counterexample to C3 as stated: the validator accepts the row
(`float("1_0")` is 10.0, in range), yet the row is not included in the
normalized frame — pandas `to_numeric` cannot parse `"1_0"`, so the
`dropna` drops it — and it is counted as rejected. -/
theorem C3_counterexample :
    validate_coordinates (Value.str "1_0") (Value.float (.fin (mkRat 20 1))) = true
    ∧ (normalize dsC3).rows = [] ∧ (normalize dsC3).rejected = 1 :=
  ⟨by decide, by decide, by decide⟩

/-- Claim C3 (amended): with both roles assigned, the normalized rows
are exactly the raw rows passing `keepRow` — the validator mask AND
non-missingness of both pandas-coerced coordinates — transformed in
order; inclusion still implies validator success (and the pure pipeline
never raises), but not conversely. -/
theorem C3_inclusion (ds : Dataset) (lc gc : String)
    (h1 : latColSel ds.cols = some lc) (h2 : lonColSel ds.cols = some gc) :
    (normalize ds).rows =
      (ds.rows.filter (keepRow ds.cols lc gc)).map (transformRow ds.cols lc gc)
    ∧ ∀ r : List Value, keepRow ds.cols lc gc r = true →
        validate_coordinates (getCell ds.cols r lc) (getCell ds.cols r gc) = true := by
  refine ⟨normalize_rows_eq ds lc gc h1 h2, fun r h => ?_⟩
  simp only [keepRow, Bool.and_eq_true] at h
  exact h.1

/-- Witness for C3 (amended) at a concrete frame. -/
theorem C3_witness :
    latColSel dsC3w.cols = some "lat" ∧ lonColSel dsC3w.cols = some "lon"
    ∧ (normalize dsC3w).rows =
        (dsC3w.rows.filter (keepRow dsC3w.cols "lat" "lon")).map
          (transformRow dsC3w.cols "lat" "lon") :=
  ⟨by decide, by decide, (C3_inclusion dsC3w "lat" "lon" (by decide) (by decide)).1⟩

/-- Claim C5: the normalized row sequence is a sublist (order-preserving
selection) of the raw rows transformed in their original order —
normalization is a stable filter. -/
theorem C5_stable_filter (ds : Dataset) (lc gc : String)
    (h1 : latColSel ds.cols = some lc) (h2 : lonColSel ds.cols = some gc) :
    List.Sublist (normalize ds).rows (ds.rows.map (transformRow ds.cols lc gc)) := by
  rw [normalize_rows_eq ds lc gc h1 h2]
  exact List.Sublist.map _ (List.filter_sublist _)

/-- Witness for C5 at a concrete two-row frame. -/
theorem C5_witness :
    List.Sublist (normalize dsC5).rows (dsC5.rows.map (transformRow dsC5.cols "lat" "lon")) :=
  C5_stable_filter dsC5 "lat" "lon" (by decide) (by decide)

/-- Claim C1: `validate_coordinates` returns true iff both inputs
coerce under `float()` and the coerced latitude/longitude pass the
chained range comparisons; on finite values those comparisons mean
`-90 ≤ q ≤ 90` and `-180 ≤ q ≤ 180`; the four boundary values are valid
while latitude 90.0000001 and longitude 180.0000001 are invalid. -/
theorem C1_validate_iff :
    (∀ lat lon : Value, validate_coordinates lat lon = true ↔
      ∃ la lo : PFloat, pyFloat lat = Except.ok la ∧ pyFloat lon = Except.ok lo
        ∧ latOk la = true ∧ lonOk lo = true)
    ∧ (∀ q : ℚ, latOk (.fin q) = true ↔ -90 ≤ q ∧ q ≤ 90)
    ∧ (∀ q : ℚ, lonOk (.fin q) = true ↔ -180 ≤ q ∧ q ≤ 180)
    ∧ validate_coordinates (.intv 90) (.intv 180) = true
    ∧ validate_coordinates (.intv (-90)) (.intv (-180)) = true
    ∧ validate_coordinates (.str "90.0000001") (.intv 0) = false
    ∧ validate_coordinates (.intv 0) (.str "180.0000001") = false := by
  refine ⟨?_, ?_, ?_, by decide, by decide, by decide, by decide⟩
  · intro lat lon
    cases hla : pyFloat lat <;> cases hlo : pyFloat lon <;>
      simp [validate_coordinates, hla, hlo]
  · intro q
    simp [latOk, PFloat.le, Bool.and_eq_true]
  · intro q
    simp [lonOk, PFloat.le, Bool.and_eq_true]

/-- Counterexample to C9 as stated: `float()` on the integer `10 ^ 400`
raises OverflowError, which `except (ValueError, TypeError)` does not
catch, so `validate_coordinates` propagates an exception on a number
input instead of returning a boolean. -/
theorem C9_counterexample :
    pyFloat (Value.intv (10 ^ 400)) = Except.error PyErr.overflowError
    ∧ validate_coordinates_run (Value.intv (10 ^ 400)) (Value.intv 0)
        = Except.error PyErr.overflowError
    ∧ PyErr.overflowError ≠ PyErr.valueError
    ∧ PyErr.overflowError ≠ PyErr.typeError :=
  ⟨by decide, by decide, by decide, by decide⟩

/-- Claim C9 (amended): `validate_coordinates` returns a boolean and
never propagates an exception on every input pair free of
overflow-sized integers — every `float()` failure there is a caught
ValueError or TypeError — and a NaN input coerces successfully yet the
function returns false, because NaN fails every range comparison; an
overflow-sized integer, however, makes `float()` raise OverflowError,
which the except clause does not catch (see the counterexample). -/
theorem C9_validate_total :
    (∀ lat lon : Value, coercionSafe lat = true → coercionSafe lon = true →
      validate_coordinates_run lat lon = Except.ok (validate_coordinates lat lon))
    ∧ (∀ lat lon : Value,
        validate_coordinates lat lon = true ∨ validate_coordinates lat lon = false)
    ∧ (∀ v : Value, coercionSafe v = true →
        (∃ f, pyFloat v = Except.ok f)
        ∨ pyFloat v = Except.error PyErr.valueError
        ∨ pyFloat v = Except.error PyErr.typeError)
    ∧ pyFloat (.float .pnan) = Except.ok PFloat.pnan
    ∧ (∀ lon : Value, coercionSafe lon = true →
        validate_coordinates_run (.float .pnan) lon = Except.ok false) := by
  refine ⟨?_, fun lat lon => ?_, ?_, rfl, ?_⟩
  · intro lat lon h1 h2
    have hl := pyFloat_safe lat h1
    have hg := pyFloat_safe lon h2
    cases hla : pyFloat lat with
    | error e =>
      cases e with
      | valueError => simp [validate_coordinates_run, validate_coordinates, hla]
      | typeError => simp [validate_coordinates_run, validate_coordinates, hla]
      | overflowError => exact absurd hla hl
    | ok la =>
      cases hlo : pyFloat lon with
      | error e =>
        cases e with
        | valueError => simp [validate_coordinates_run, validate_coordinates, hla, hlo]
        | typeError => simp [validate_coordinates_run, validate_coordinates, hla, hlo]
        | overflowError => exact absurd hlo hg
      | ok lo => simp [validate_coordinates_run, validate_coordinates, hla, hlo]
  · cases h : validate_coordinates lat lon
    · exact .inr rfl
    · exact .inl rfl
  · intro v hsafe
    cases v with
    | float f => exact .inl ⟨f, rfl⟩
    | intv n =>
      simp only [coercionSafe] at hsafe
      exact .inl ⟨.fin (n : ℚ), by simp [pyFloat, of_decide_eq_true hsafe]⟩
    | str s =>
      cases h : pyParseFloat s with
      | some f => exact .inl ⟨f, by simp [pyFloat, h]⟩
      | none => exact .inr (.inl (by simp [pyFloat, h]))
    | vnone => exact .inr (.inr rfl)
  · intro lon h
    have hg := pyFloat_safe lon h
    have hput : pyFloat (Value.float PFloat.pnan) = Except.ok PFloat.pnan := rfl
    cases hlo : pyFloat lon with
    | error e =>
      cases e with
      | valueError => simp [validate_coordinates_run, hput, hlo]
      | typeError => simp [validate_coordinates_run, hput, hlo]
      | overflowError => exact absurd hlo hg
    | ok lo => simp [validate_coordinates_run, hput, hlo, latOk, PFloat.le]

/-- Witness for C9 (amended): the run/return agreement and the NaN
behavior, exercised at concrete coercion-safe inputs. -/
theorem C9_witness :
    coercionSafe (Value.str "abc") = true
    ∧ coercionSafe (Value.intv 20) = true
    ∧ validate_coordinates_run (Value.str "abc") (Value.intv 20)
        = Except.ok (validate_coordinates (Value.str "abc") (Value.intv 20))
    ∧ validate_coordinates_run (Value.float .pnan) (Value.intv 20) = Except.ok false :=
  ⟨by decide, by decide,
    C9_validate_total.1 (Value.str "abc") (Value.intv 20) (by decide) (by decide),
    C9_validate_total.2.2.2.2 (Value.intv 20) (by decide)⟩

/-- Counterexample to C4 as stated: for columns `colA`, `colB` (neither
matching a name pattern) the longitude selection also defaults to
`colA`, the first column — not to `colB` as the claimed numeric-fallback
rule demands; the selection does not look at the values at all. -/
theorem C4_counterexample :
    latColSel ["colA", "colB"] = some "colA"
    ∧ lonColSel ["colA", "colB"] = some "colA"
    ∧ ¬ lonColSel ["colA", "colB"] = some "colB" :=
  ⟨by decide, by decide, by decide⟩

/-- Claim C4 (amended): when a role is unmatched by the name patterns
its selectbox defaults to the frame's first column, independent of the
values; for a frame with at least one column both roles are always
assigned (there is no numeric-field fallback and no unassigned state). -/
theorem C4_default_selection (cols : List String) (h : cols ≠ []) :
    (cols.filter isLatName = [] → latColSel cols = cols.head?)
    ∧ (cols.filter isLonName = [] → lonColSel cols = cols.head?)
    ∧ (latColSel cols).isSome = true ∧ (lonColSel cols).isSome = true :=
  ⟨fun hf => roleDefaultSel_noMatch _ _ hf, fun hf => roleDefaultSel_noMatch _ _ hf,
    roleDefaultSel_isSome _ _ h, roleDefaultSel_isSome _ _ h⟩

/-- Witness for C4 (amended) at the concrete columns `colA`, `colB`. -/
theorem C4_witness :
    (["colA", "colB"] : List String) ≠ []
    ∧ ["colA", "colB"].filter isLatName = []
    ∧ latColSel ["colA", "colB"] = (["colA", "colB"] : List String).head?
    ∧ (lonColSel ["colA", "colB"]).isSome = true :=
  ⟨by decide, by decide, (C4_default_selection _ (by decide)).1 (by decide),
    (C4_default_selection _ (by decide)).2.2.2⟩

/-- Counterexample to C6 as stated: for a valid point with no city,
state or postal attributes, the tooltip in both branches is just
`"Location 1"` — it does not contain the six-decimal latitude
`"10.000000"` (nor the longitude or a postal code). -/
theorem C6_counterexample :
    tooltipCluster 0 (normalize dsC6).cols ((normalize dsC6).rows.getD 0 []) = "Location 1"
    ∧ tooltipNoCluster 0 (normalize dsC6).cols ((normalize dsC6).rows.getD 0 []) = "Location 1"
    ∧ formatSixV (getCell (normalize dsC6).cols ((normalize dsC6).rows.getD 0 []) "latitude")
        = "10.000000"
    ∧ listContainsSub "Location 1".data "10.000000".data = false :=
  ⟨by decide, by decide, by decide, by decide⟩

/-- Claim C6 (amended): the tooltip never shows coordinates or postal
code; it is the city value when a city field is present and non-missing
(in both branches), otherwise the state value in the clustered branch
only (the non-clustered branch has no state fallback), otherwise the
generic `Location ⟨index+1⟩` text. -/
theorem C6_tooltip (idx : Nat) (cols : List String) (row : List Value) :
    (hasAttr cols row "city" = true →
      tooltipCluster idx cols row = pyStr (getCell cols row "city")
      ∧ tooltipNoCluster idx cols row = pyStr (getCell cols row "city"))
    ∧ (hasAttr cols row "city" = false → hasAttr cols row "state" = true →
      tooltipCluster idx cols row = pyStr (getCell cols row "state")
      ∧ tooltipNoCluster idx cols row = "Location " ++ toString (idx + 1))
    ∧ (hasAttr cols row "city" = false → hasAttr cols row "state" = false →
      tooltipCluster idx cols row = "Location " ++ toString (idx + 1)
      ∧ tooltipNoCluster idx cols row = "Location " ++ toString (idx + 1)) := by
  refine ⟨fun hc => ?_, fun hc hs => ?_, fun hc hs => ?_⟩ <;>
    simp [tooltipCluster, tooltipNoCluster, hc, *]

/-- Witness for C6 (amended): a point with a state but no city. -/
theorem C6_witness :
    hasAttr ["state"] [Value.str "NY"] "city" = false
    ∧ hasAttr ["state"] [Value.str "NY"] "state" = true
    ∧ tooltipCluster 0 ["state"] [Value.str "NY"] = pyStr (getCell ["state"] [Value.str "NY"] "state")
    ∧ tooltipNoCluster 0 ["state"] [Value.str "NY"] = "Location " ++ toString (0 + 1) :=
  ⟨by decide, by decide,
    ((C6_tooltip 0 ["state"] [Value.str "NY"]).2.1 (by decide) (by decide)).1,
    ((C6_tooltip 0 ["state"] [Value.str "NY"]).2.1 (by decide) (by decide)).2⟩

/-- Counterexample to C7 as stated: a valid point carrying an address
has an Address line in the clustered popup but no Address line anywhere
in the non-clustered popup. -/
theorem C7_counterexample :
    hasAttr (normalize dsC7).cols ((normalize dsC7).rows.getD 0 []) "address" = true
    ∧ ((popupNoCluster 0 (normalize dsC7).cols ((normalize dsC7).rows.getD 0 [])).any
        fun l => listContainsSub l.data "Address:".data) = false
    ∧ ((popupCluster 0 (normalize dsC7).cols ((normalize dsC7).rows.getD 0 [])).any
        fun l => listContainsSub l.data "Address:".data) = true :=
  ⟨by decide, by decide, by decide⟩

/-- Claim C7 (amended): both popups are structured blocks in the fixed
order: generic location header (there is no display-name line), latitude
and longitude to six decimals, then postal code, state and city, each
present exactly when the attribute is present and non-missing; the
address line additionally appears, under the same condition, in the
clustered popup only — the non-clustered popup never includes it. -/
theorem C7_popup_structure (idx : Nat) (cols : List String) (row : List Value) :
    popupCluster idx cols row =
      [divOpen, headerLine idx, latLine cols row, lonLine cols row]
      ++ (if hasAttr cols row "postal_code" then [attrLine "Postal Code" cols row "postal_code"] else [])
      ++ (if hasAttr cols row "state" then [attrLine "State" cols row "state"] else [])
      ++ (if hasAttr cols row "city" then [attrLine "City" cols row "city"] else [])
      ++ (if hasAttr cols row "address" then [attrLine "Address" cols row "address"] else [])
      ++ [divClose]
    ∧ popupNoCluster idx cols row =
      [divOpen, headerLine idx, latLine cols row, lonLine cols row]
      ++ (if hasAttr cols row "postal_code" then [attrLine "Postal Code" cols row "postal_code"] else [])
      ++ (if hasAttr cols row "state" then [attrLine "State" cols row "state"] else [])
      ++ (if hasAttr cols row "city" then [attrLine "City" cols row "city"] else [])
      ++ [divClose] := by
  constructor <;>
    · cases hp : hasAttr cols row "postal_code" <;> cases hs : hasAttr cols row "state" <;>
        cases hc : hasAttr cols row "city" <;> cases ha : hasAttr cols row "address" <;>
        simp [popupCluster, popupNoCluster, hp, hs, hc, ha]

/-- Claim C8: a normalized frame with exactly one point, rendered with
clustering enabled (Detailed mode), bypasses the `MarkerCluster`
(`len(data) > 1` fails) and yields exactly one individual marker — the
degenerate single-member cluster of the spec. -/
theorem C8_single_point (ds : Dataset) (h : (normalize ds).rows.length = 1) :
    (create_folium_map (normalize ds) true).clustered = false
    ∧ (create_folium_map (normalize ds) true).markers.length = 1 := by
  constructor
  · simp [create_folium_map, h]
  · simp [create_folium_map, dataPoints, h]

/-- Witness for C8 at the concrete single-point frame `(10.0, 20.0)`. -/
theorem C8_witness :
    (normalize dsC8).rows.length = 1
    ∧ (create_folium_map (normalize dsC8) true).clustered = false
    ∧ (create_folium_map (normalize dsC8) true).markers.length = 1 :=
  ⟨by decide, (C8_single_point dsC8 (by decide)).1, (C8_single_point dsC8 (by decide)).2⟩

/-- Counterexample to C10 as stated: when the uploaded table already has
a column literally named `latitude` (here holding the string "10.5"),
the normalized frame holds the coerced float 10.5 in that field — the
original field does not keep its original value. -/
theorem C10_counterexample :
    getCell dsC10.cols (dsC10.rows.getD 0 []) "latitude" = Value.str "10.5"
    ∧ getCell (normalize dsC10).cols ((normalize dsC10).rows.getD 0 []) "latitude"
        = Value.float (.fin (mkRat 21 2))
    ∧ Value.str "10.5" ≠ Value.float (.fin (mkRat 21 2)) :=
  ⟨by decide, by decide, by decide⟩

/-- Claim C10 (amended): for every accepted row, every original field
position whose name is neither `latitude` nor `longitude` keeps exactly
its original value; the output columns are the original ones plus at
most the two coordinate names (existing columns of those names are
overwritten with the coerced numerics rather than added).  In-place
mutation of the raw frame is outside this pure embedding; the source
operates on a `.copy()`. -/
theorem C10_frame :
    (∀ (cols : List String) (lc gc : String) (r : List Value) (j : Nat),
      r.length = cols.length → j < cols.length →
      cols.getD j "" ≠ "latitude" → cols.getD j "" ≠ "longitude" →
      (transformRow cols lc gc r).getD j Value.vnone = r.getD j Value.vnone)
    ∧ (∀ (cols : List String) (c : String), c ∈ colsOut cols →
        c ∈ cols ∨ c = "latitude" ∨ c = "longitude")
    ∧ (∀ (ds : Dataset) (lc gc : String), latColSel ds.cols = some lc →
        lonColSel ds.cols = some gc → (normalize ds).cols = colsOut ds.cols) := by
  refine ⟨?_, ?_, fun ds lc gc h1 h2 => normalize_cols ds lc gc h1 h2⟩
  · intro cols lc gc r j hlen hj h1 h2
    have hlen1 : (assignLat cols lc r).length = (addColName cols "latitude").length :=
      setCell_length cols r _ _ hlen
    have hj1 : j < (addColName cols "latitude").length :=
      lt_of_lt_of_le hj (addColName_length_le cols "latitude")
    have hname1 : (addColName cols "latitude").getD j "" ≠ "longitude" := by
      rw [addColName_getD cols "latitude" j hj]
      exact h2
    calc (transformRow cols lc gc r).getD j Value.vnone
        = (assignLat cols lc r).getD j Value.vnone :=
          setCell_getD_ne _ _ _ _ _ hlen1 hj1 hname1
      _ = r.getD j Value.vnone := setCell_getD_ne _ _ _ _ _ hlen hj h1
  · intro cols c h
    rcases addColName_mem _ _ _ h with h' | h'
    · rcases addColName_mem _ _ _ h' with h'' | h''
      · exact .inl h''
      · exact .inr (.inl h'')
    · exact .inr (.inr h')

/-- Witness for C10 (amended): the `name` field of a concrete row is
unchanged by the per-row transformation. -/
theorem C10_witness :
    (["name", "lat", "lon"] : List String).getD 0 "" ≠ "latitude"
    ∧ (transformRow ["name", "lat", "lon"] "lat" "lon" rowC10w).getD 0 Value.vnone
        = rowC10w.getD 0 Value.vnone :=
  ⟨by decide,
    C10_frame.1 ["name", "lat", "lon"] "lat" "lon" rowC10w 0
      (by decide) (by decide) (by decide) (by decide)⟩

end GeoApp
